import Mathlib

/-!
Shallow embedding of the crane-monitoring KPI services and ingestion
classifier, with theorems checking the specification's claims against the
code's behaviour.

Conventions of the embedding:
* timestamps and durations are rationals measured in seconds
  (`datetime`/`timedelta` values in the source);
* power is in kW, energy in kWh, load in kg, mass in tonnes;
* numeric columns (`Decimal`/`float` in the source) are rationals;
* a Python function that can raise an exception on the modelled path is
  embedded as an `Option`-valued function, `none` marking the raise;
* a nullable database column is an `Option` field.
-/

namespace CraneMonitoring

/-! ## `cranes/services/energy_calculator.py` -/

/-- One `CraneMotorMeasurement` row as read by the energy integrator:
the `timestamp` column (seconds) and the nullable `total_power` column (kW). -/
structure MotorSample where
  timestamp : ℚ
  total_power : Option ℚ
deriving DecidableEq

/-- Loop state of `EnergyCalculator.calculate_energy_consumption`:
`total_energy_kwh`, `prev_time` (initially `None`) and `prev_power`
(initially `0`). -/
structure EnergyState where
  total : ℚ
  prev_time : Option ℚ
  prev_power : ℚ
deriving DecidableEq

/-- One iteration of the loop in
`EnergyCalculator.calculate_energy_consumption`.  When `prev_time` is set,
the source computes `avg_power = (prev_power + measurement.total_power) / 2`
with the raw column value, so a null `total_power` there raises a
`TypeError`: that raise is modelled by `none`.  The null-default
`measurement.total_power or 0` is applied only when storing `prev_power`. -/
def energyStep (st : EnergyState) (m : MotorSample) : Option EnergyState :=
  match st.prev_time with
  | none => some ⟨st.total, some m.timestamp, m.total_power.getD 0⟩
  | some t0 =>
      match m.total_power with
      | none => none
      | some p =>
          let time_diff_hours := (m.timestamp - t0) / 3600
          let avg_power := (st.prev_power + p) / 2
          some ⟨st.total + avg_power * time_diff_hours, some m.timestamp, p⟩

/-- The `for measurement in power_data` loop: threads `energyStep` through
the sample list, aborting (propagating the exception) on `none`. -/
def energyLoop : EnergyState → List MotorSample → Option EnergyState
  | st, [] => some st
  | st, m :: ms =>
      match energyStep st m with
      | none => none
      | some st2 => energyLoop st2 ms

/-- `EnergyCalculator.calculate_energy_consumption`: trapezoidal
integration of `total_power` over the window's measurements, in ascending
timestamp order. -/
def calculate_energy_consumption (ms : List MotorSample) : Option ℚ :=
  (energyLoop ⟨0, none, 0⟩ ms).map EnergyState.total

/-- `EnergyCalculator.calculate_energy_cost`. -/
def calculate_energy_cost (energy_kwh tariff_rate : ℚ) : ℚ :=
  energy_kwh * tariff_rate

/-- `EnergyCalculator.calculate_energy_per_ton`. -/
def calculate_energy_per_ton (energy_kwh total_mass_tonnes : ℚ) : ℚ :=
  if total_mass_tonnes > 0 then energy_kwh / total_mass_tonnes else 0

/-- `EnergyCalculator.calculate_system_efficiency`.  The source guards
`target_energy_per_ton > 0` and then evaluates
`(target_energy_per_ton / actual_energy_per_ton) * 100`; when
`actual_energy_per_ton` is zero that division raises `ZeroDivisionError`,
modelled by `none`. -/
def calculate_system_efficiency (actual_energy_per_ton target_energy_per_ton : ℚ) : Option ℚ :=
  if target_energy_per_ton > 0 then
    if actual_energy_per_ton = 0 then none
    else some (min (target_energy_per_ton / actual_energy_per_ton * 100) 100)
  else some 0

/-- Trapezoidal sum spelled out the way the specification describes it:
for each consecutive pair of (timestamp, power) samples add
`average(prev, curr) × Δt_hours`; a single sample alone contributes
nothing. -/
def spec_trapezoid : List (ℚ × ℚ) → ℚ
  | (t1, p1) :: (t2, p2) :: rest =>
      (p1 + p2) / 2 * ((t2 - t1) / 3600) + spec_trapezoid ((t2, p2) :: rest)
  | _ => 0

/-! ## `cranes/services/operation_calculator.py`: lift counting -/

/-- Loop state of `OperationCalculator.count_lifts`:
`(lift_count, last_hoist_up)`. -/
def liftStep (st : ℕ × Option ℚ) (t : ℚ) : ℕ × Option ℚ :=
  match st.2 with
  | none => (st.1, some t)
  | some last => (if t - last > 5 then st.1 + 1 else st.1, some t)

/-- `OperationCalculator.count_lifts` over the window's hoist-up sample
timestamps (the database query pre-filters `hoist_up=True` and orders
ascending by timestamp). -/
def count_lifts (ts : List ℚ) : ℕ :=
  (ts.foldl liftStep (0, none)).1

/-- The number of consecutive pairs whose gap strictly exceeds 5 seconds:
the specification's reading of the debounce rule ("every sample after the
first increments the lift count only if the gap since `last_seen_timestamp`
exceeds 5 seconds"). -/
def spec_gap_count : List ℚ → ℕ
  | t1 :: t2 :: rest => (if t2 - t1 > 5 then 1 else 0) + spec_gap_count (t2 :: rest)
  | _ => 0

/-- Last timestamp of a nonempty burst given as head plus tail. -/
def burstLast : ℚ → List ℚ → ℚ
  | h, [] => h
  | _, t :: ts => burstLast t ts

/-- A burst is internally tight when each consecutive gap is at most 5
seconds (so, by the debounce rule, it is one continuous lift). -/
def burstTight : ℚ → List ℚ → Bool
  | _, [] => true
  | h, t :: ts => decide (t - h ≤ 5) && burstTight t ts

/-- Concatenate a list of nonempty bursts into one ordered sample list. -/
def burstsJoin : List (ℚ × List ℚ) → List ℚ
  | [] => []
  | b :: bs => (b.1 :: b.2) ++ burstsJoin bs

/-- Consecutive bursts are widely spaced: the gap from the last sample of
one burst to the first sample of the next strictly exceeds 5 seconds. -/
def burstsSpaced : List (ℚ × List ℚ) → Bool
  | [] => true
  | [_] => true
  | b :: c :: bs => decide (c.1 - burstLast b.1 b.2 > 5) && burstsSpaced (c :: bs)

/-! ## `cranes/services/operation_calculator.py`: operation durations -/

/-- One `CraneIOStatus` row: the eight boolean operation flags and the
`timestamp` column. -/
structure IOSample where
  start : Bool := false
  stop : Bool := false
  hoist_up : Bool := false
  hoist_down : Bool := false
  ct_left : Bool := false
  ct_right : Bool := false
  lt_forward : Bool := false
  lt_reverse : Bool := false
  timestamp : ℚ
deriving DecidableEq

/-- The seven operation names keyed in the `operations` dictionary of
`OperationCalculator.calculate_operation_durations`. -/
inductive Operation where
  | hoist_up
  | hoist_down
  | ct_left
  | ct_right
  | lt_forward
  | lt_reverse
  | stop
deriving DecidableEq

/-- `OperationCalculator._get_active_operation`: flags are tested in a
fixed priority order, the first true flag wins; `none` is Python's
`None`. -/
def get_active_operation (s : IOSample) : Option Operation :=
  if s.hoist_up then some .hoist_up
  else if s.hoist_down then some .hoist_down
  else if s.ct_left then some .ct_left
  else if s.ct_right then some .ct_right
  else if s.lt_forward then some .lt_forward
  else if s.lt_reverse then some .lt_reverse
  else if s.stop then some .stop
  else none

/-- Loop state of `calculate_operation_durations`: the `operations`
dictionary plus `current_operation` and `operation_start`. -/
structure DurState where
  durations : Operation → ℚ
  current_operation : Option Operation
  operation_start : Option ℚ

/-- One iteration of the loop in `calculate_operation_durations`.  When
the resolved operation differs from `current_operation`, the time since
the last transition is accrued to the previous operation (only when both
`current_operation` and `operation_start` are set) and a new accrual
period is opened; an unchanged operation leaves the state untouched. -/
def durStep (st : DurState) (s : IOSample) : DurState :=
  let new_operation := get_active_operation s
  if st.current_operation = new_operation then st
  else
    let durations :=
      match st.current_operation, st.operation_start with
      | some c, some t0 =>
          fun o => if o = c then st.durations o + (s.timestamp - t0) else st.durations o
      | _, _ => st.durations
    ⟨durations, new_operation, some s.timestamp⟩

/-- `OperationCalculator.calculate_operation_durations` over the window's
samples in ascending timestamp order.  Note there is no flush of a
still-open period after the loop: the function returns the dictionary as
the loop left it. -/
def calculate_operation_durations (ss : List IOSample) : Operation → ℚ :=
  (ss.foldl durStep ⟨fun _ => 0, none, none⟩).durations

/-- `OperationCalculator.calculate_total_mass_moved` loop state:
`(total_mass_kg, last_load)`. -/
def massStep (st : ℚ × ℚ) (l : ℚ) : ℚ × ℚ :=
  (if l > st.2 then st.1 + l else st.1, l)

/-- `OperationCalculator.calculate_total_mass_moved` over the window's
loadcell `load` values in ascending timestamp order (kg summed, divided
by 1000 into tonnes). -/
def calculate_total_mass_moved (loads : List ℚ) : ℚ :=
  (loads.foldl massStep (0, 0)).1 / 1000

/-- `OperationCalculator._count_operations`: a plain count of the
window's samples with the given flag true. -/
def _count_operations (ss : List IOSample) (flag : IOSample → Bool) : ℕ :=
  ss.countP flag

/-! ## `cranes/services/oee_calculator.py` -/

/-- The `is_operating` test of `OEECalculator._get_total_operation_time`:
any of the six motion flags (`start` and `stop` are excluded). -/
def is_operating (s : IOSample) : Bool :=
  s.hoist_up || s.hoist_down || s.ct_left || s.ct_right || s.lt_forward || s.lt_reverse

/-- Loop state of `_get_total_operation_time`: accumulated
`operation_time` and the optional `operation_start` of an open span. -/
structure OpTimeState where
  operation_time : ℚ
  operation_start : Option ℚ

/-- One iteration of the loop in `_get_total_operation_time`: an
operating sample opens a span if none is open; a non-operating sample
closes an open span, accruing its length. -/
def opTimeStep (st : OpTimeState) (s : IOSample) : OpTimeState :=
  if is_operating s then
    match st.operation_start with
    | none => ⟨st.operation_time, some s.timestamp⟩
    | some t0 => ⟨st.operation_time, some t0⟩
  else
    match st.operation_start with
    | none => st
    | some t0 => ⟨st.operation_time + (s.timestamp - t0), none⟩

/-- The code after the loop of `_get_total_operation_time`: a span still
open at function return is flushed to `end_time`. -/
def opTimeFinish (st : OpTimeState) (end_time : ℚ) : ℚ :=
  match st.operation_start with
  | some t0 => st.operation_time + (end_time - t0)
  | none => st.operation_time

/-- `OEECalculator._get_total_operation_time` over the window's samples. -/
def _get_total_operation_time (ss : List IOSample) (end_time : ℚ) : ℚ :=
  opTimeFinish (ss.foldl opTimeStep ⟨0, none⟩) end_time

/-- `OEECalculator.calculate_availability`. -/
def calculate_availability (ss : List IOSample) (end_time planned : ℚ) : ℚ :=
  if planned > 0 then
    min (_get_total_operation_time ss end_time / planned * 100) 100
  else 0

/-- `OEECalculator.calculate_performance`: hoist-up sample count against
a fixed 60 ideal cycles per hour, capped at 100. -/
def calculate_performance (ss : List IOSample) (start_time end_time : ℚ) : ℚ :=
  let actual_cycles : ℕ := ss.countP (fun s => s.hoist_up)
  let total_hours := (end_time - start_time) / 3600
  if total_hours > 0 then
    let ideal_cycles := 60 * total_hours
    if ideal_cycles > 0 then min ((actual_cycles : ℚ) / ideal_cycles * 100) 100
    else 0
  else 0

/-- `OEECalculator.calculate_quality`: a hardcoded 99.0 placeholder. -/
def calculate_quality : ℚ := 99

/-- The dictionary returned by `OEECalculator.calculate_oee`. -/
structure OEEMetrics where
  availability : ℚ
  performance : ℚ
  quality : ℚ
  oee : ℚ
deriving DecidableEq

/-- `OEECalculator.calculate_oee` with the default
`planned_production_time = end_time - start_time`. -/
def calculate_oee (ss : List IOSample) (start_time end_time : ℚ) : OEEMetrics :=
  let availability := calculate_availability ss end_time (end_time - start_time)
  let performance := calculate_performance ss start_time end_time
  let quality := calculate_quality
  ⟨availability, performance, quality, availability * performance * quality / 10000⟩

/-- Operating time as the specification reads it, pairwise: each
consecutive pair of samples contributes its gap when the earlier sample
is operating (spans during which any motion flag is true). -/
def spec_operating_pairs : List IOSample → ℚ
  | a :: b :: rest =>
      (if is_operating a then b.timestamp - a.timestamp else 0) +
        spec_operating_pairs (b :: rest)
  | _ => 0

/-- The flushed tail span: when the window's last sample is operating,
the open span is extended from that sample to `end_time`. -/
def spec_open_flush (end_time : ℚ) : List IOSample → ℚ
  | [] => 0
  | [a] => if is_operating a then end_time - a.timestamp else 0
  | _ :: b :: rest => spec_open_flush end_time (b :: rest)

/-- Bookkeeping term for the open-span invariant of the accrual loop: an
already-open span reaches to the next sample, or to `end_time` when no
sample remains. -/
def opTimeBoundary (o : Option ℚ) (ss : List IOSample) (end_time : ℚ) : ℚ :=
  match o with
  | none => 0
  | some t0 =>
      match ss with
      | [] => end_time - t0
      | a :: _ => a.timestamp - t0

/-- An all-flags-false IO sample at time `t`. -/
def ioIdleAt (t : ℚ) : IOSample := { timestamp := t }

/-- A hoist-up IO sample at time `t`. -/
def ioHoistUpAt (t : ℚ) : IOSample := { timestamp := t, hoist_up := true }

/-- A hoist-down IO sample at time `t`. -/
def ioHoistDownAt (t : ℚ) : IOSample := { timestamp := t, hoist_down := true }

/-! ## `cranes/models.py`: `CraneLoadcellMeasurement.save` -/

/-- The three values of the `status` column of
`CraneLoadcellMeasurement`. -/
inductive LoadStatus where
  | normal
  | warning
  | overload
deriving DecidableEq

/-- `CraneLoadcellMeasurement.save`: when `capacity` is truthy and
positive (`self.capacity and self.capacity > 0`, which over the rationals
is `capacity > 0`), `load_percentage` is recomputed as
`load / capacity * 100` and `status` rederived from it (`>= 95` overload,
`>= 80` warning, otherwise normal); otherwise the previously stored pair
is kept.  Returns the `(load_percentage, status)` pair that is stored. -/
def loadcell_save (load capacity pct0 : ℚ) (status0 : LoadStatus) : ℚ × LoadStatus :=
  if capacity > 0 then
    let load_percentage := load / capacity * 100
    let status : LoadStatus :=
      if load_percentage ≥ 95 then .overload
      else if load_percentage ≥ 80 then .warning
      else .normal
    (load_percentage, status)
  else (pct0, status0)

/-! ## `cranes/services/kpi_manager.py` -/

/-- The fields of `CraneConfiguration` the hourly rollup reads. -/
structure CraneConfig where
  tariff_rate : ℚ
  target_energy_per_ton : ℚ
deriving DecidableEq

/-- One `CraneHourlyKPIs` row as written by
`KPIManager._calculate_crane_hourly_kpis` (the `defaults` dictionary of
its `update_or_create` call). -/
structure HourlyKPIs where
  hoist_up_time : ℚ := 0
  hoist_down_time : ℚ := 0
  ct_left_time : ℚ := 0
  ct_right_time : ℚ := 0
  lt_forward_time : ℚ := 0
  lt_reverse_time : ℚ := 0
  stop_time : ℚ := 0
  total_motion_time : ℚ := 0
  hoist_up_count : ℕ := 0
  hoist_down_count : ℕ := 0
  ct_left_count : ℕ := 0
  ct_right_count : ℕ := 0
  lt_forward_count : ℕ := 0
  lt_reverse_count : ℕ := 0
  stop_count : ℕ := 0
  total_lifts : ℕ := 0
  total_mass_moved_tonnes : ℚ := 0
  average_load_per_lift : ℚ := 0
  total_energy_kwh : ℚ := 0
  hourly_energy_cost : ℚ := 0
  energy_per_ton : ℚ := 0
  system_efficiency : ℚ := 0
  availability : ℚ := 0
  performance : ℚ := 0
  quality : ℚ := 0
  oee : ℚ := 0
deriving DecidableEq

/-- The measurement rows and configuration one crane's hourly rollup
reads for the window `[hour_start, hour_end)`, each list in ascending
timestamp order. -/
structure HourlyInputs where
  ios : List IOSample
  motors : List MotorSample
  loads : List ℚ
  config : Option CraneConfig
  hour_start : ℚ
  hour_end : ℚ

/-- `KPIManager._calculate_crane_hourly_kpis` up to its
`update_or_create` call: the computed row, or `none` when a step raises —
a null `total_power` inside the energy loop (`TypeError`), a crane with
no `CraneConfiguration` row (`crane.craneconfiguration` raises
`RelatedObjectDoesNotExist` before the `if config else 0.15` fallback can
apply), or a `ZeroDivisionError` in the system-efficiency step — in
which case the surrounding `try/except` logs the error and nothing is
written. -/
def _calculate_crane_hourly_kpis (inp : HourlyInputs) : Option HourlyKPIs :=
  let operations := calculate_operation_durations inp.ios
  let lift_count := count_lifts ((inp.ios.filter fun s => s.hoist_up).map IOSample.timestamp)
  let total_mass_tonnes := calculate_total_mass_moved inp.loads
  match calculate_energy_consumption inp.motors with
  | none => none
  | some energy_kwh =>
      match inp.config with
      | none => none
      | some config =>
          let hourly_cost := calculate_energy_cost energy_kwh config.tariff_rate
          let energy_per_ton := calculate_energy_per_ton energy_kwh total_mass_tonnes
          match calculate_system_efficiency energy_per_ton config.target_energy_per_ton with
          | none => none
          | some system_efficiency =>
              let oee_metrics := calculate_oee inp.ios inp.hour_start inp.hour_end
              some {
                hoist_up_time := operations .hoist_up
                hoist_down_time := operations .hoist_down
                ct_left_time := operations .ct_left
                ct_right_time := operations .ct_right
                lt_forward_time := operations .lt_forward
                lt_reverse_time := operations .lt_reverse
                stop_time := operations .stop
                total_motion_time :=
                  operations .hoist_up + operations .hoist_down + operations .ct_left +
                    operations .ct_right + operations .lt_forward +
                    operations .lt_reverse + operations .stop
                hoist_up_count := _count_operations inp.ios fun s => s.hoist_up
                hoist_down_count := _count_operations inp.ios fun s => s.hoist_down
                ct_left_count := _count_operations inp.ios fun s => s.ct_left
                ct_right_count := _count_operations inp.ios fun s => s.ct_right
                lt_forward_count := _count_operations inp.ios fun s => s.lt_forward
                lt_reverse_count := _count_operations inp.ios fun s => s.lt_reverse
                stop_count := _count_operations inp.ios fun s => s.stop
                total_lifts := lift_count
                total_mass_moved_tonnes := total_mass_tonnes
                average_load_per_lift :=
                  if lift_count > 0 then total_mass_tonnes / (lift_count : ℚ) else 0
                total_energy_kwh := energy_kwh
                hourly_energy_cost := hourly_cost
                energy_per_ton := energy_per_ton
                system_efficiency := system_efficiency
                availability := oee_metrics.availability
                performance := oee_metrics.performance
                quality := oee_metrics.quality
                oee := oee_metrics.oee }

/-- The `CraneHourlyKPIs` table restricted to one crane, as
(hour_start, row) pairs. -/
abbrev HourlyTable := List (ℚ × HourlyKPIs)

/-- `update_or_create` keyed by `hour_start` for a fixed crane: the
matching row's fields are replaced in place, or a new row is created when
none matches (the unique constraint on (crane, hour_start) guarantees at
most one match). -/
def update_or_create_hourly (h : ℚ) (r : HourlyKPIs) : HourlyTable → HourlyTable
  | [] => [(h, r)]
  | (k, r0) :: rest =>
      if k = h then (h, r) :: rest else (k, r0) :: update_or_create_hourly h r rest

/-- One run of the per-crane hourly rollup against the stored table:
compute the row and upsert it; when the computation raises, the
`except` branch writes nothing. -/
def hourly_rollup (inp : HourlyInputs) (tbl : HourlyTable) : HourlyTable :=
  match _calculate_crane_hourly_kpis inp with
  | none => tbl
  | some r => update_or_create_hourly inp.hour_start r tbl

/-- One `CraneDailyKPIs` row as written by
`KPIManager._calculate_crane_daily_kpis`. -/
structure DailyKPIs where
  total_operation_time : ℚ
  total_lifts : ℕ
  total_mass_moved_tonnes : ℚ
  total_energy_kwh : ℚ
  total_energy_cost : ℚ
  average_energy_per_ton : ℚ
  average_efficiency : ℚ
  availability : ℚ
  performance : ℚ
  quality : ℚ
  oee : ℚ
  peak_load : ℚ
  average_power_demand : ℚ
deriving DecidableEq

/-- The SQL `Max` aggregate over a column: `NULL` (`none`) on an empty
row set, else the maximum. -/
def aggMax : List ℚ → Option ℚ
  | [] => none
  | x :: xs => some (xs.foldl max x)

/-- `KPIManager._calculate_crane_daily_kpis` over the crane's hourly rows
of the date.  With zero hourly rows the function returns before writing
anything.  With at least one hourly row it reaches the `aggregate(...)`
call — but `Sum`, `Avg` and `Max` are never imported in
`kpi_manager.py` (its imports are only `timezone`, `datetime`,
`timedelta`, the models and the three calculator classes), so evaluating
the first argument `Sum('total_motion_time')` raises `NameError`, the
`except` at the end of the function swallows it, and the
`update_or_create` is never reached.  Either way no `CraneDailyKPIs` row
is written (`none`). -/
def _calculate_crane_daily_kpis : List HourlyKPIs → Option DailyKPIs
  | [] => none
  | _ :: _ => none

/-- The daily aggregate that the expressions at `kpi_manager.py` lines
157–192 spell out — sums, averages, `peak_load = Max('total_mass_moved_tonnes')`
and the `or 0` defaults — i.e. the row the code describes but, because
of the missing `Sum`/`Avg`/`Max` imports, never actually computes or
writes. -/
def daily_aggregate_row (rows : List HourlyKPIs) : DailyKPIs :=
  let n : ℚ := rows.length
  { total_operation_time := (rows.map HourlyKPIs.total_motion_time).sum
    total_lifts := (rows.map HourlyKPIs.total_lifts).sum
    total_mass_moved_tonnes := (rows.map HourlyKPIs.total_mass_moved_tonnes).sum
    total_energy_kwh := (rows.map HourlyKPIs.total_energy_kwh).sum
    total_energy_cost := (rows.map HourlyKPIs.hourly_energy_cost).sum
    average_energy_per_ton := (rows.map HourlyKPIs.energy_per_ton).sum / n
    average_efficiency := (rows.map HourlyKPIs.system_efficiency).sum / n
    availability := (rows.map HourlyKPIs.availability).sum / n
    performance := (rows.map HourlyKPIs.performance).sum / n
    quality := (rows.map HourlyKPIs.quality).sum / n
    oee := (rows.map HourlyKPIs.oee).sum / n
    peak_load := (aggMax (rows.map HourlyKPIs.total_mass_moved_tonnes)).getD 0
    average_power_demand := (rows.map HourlyKPIs.total_energy_kwh).sum / n * 4 }

/-- An hourly row whose `total_mass_moved_tonnes` is `m` and whose other
fields are zero. -/
def hourlyRowWithMass (m : ℚ) : HourlyKPIs := { total_mass_moved_tonnes := m }

/-! ## `cranes/mqtt_client.py`: payload classification and routing -/

/-- A decoded JSON value, as far as the classifier and the single-field
processor inspect one. -/
inductive JValue where
  | num (q : ℚ)
  | str (s : String)
  | arr (elems : List JValue)
  | boolean (b : Bool)
  | null

/-- A decoded JSON object body: ordered field-name/value pairs. -/
abbrev Payload := List (String × JValue)

/-- Python's `pat in s` substring containment on strings. -/
def strContains (s pat : String) : Bool := decide (pat.data <:+: s.data)

/-- Python's `s.startswith(chr(123))`: the first character is an opening
brace. -/
def startsWithBrace (s : String) : Bool :=
  match s.data with
  | [] => false
  | c :: _ => c == '\x7b'

/-- `CraneMQTTClient.is_array_format`: some field's value is a list with
at least 3 elements. -/
def is_array_format (payload : Payload) : Bool :=
  payload.any fun kv =>
    match kv.2 with
    | .arr elems => decide (elems.length ≥ 3)
    | _ => false

/-- `CraneMQTTClient.has_embedded_json_format`: some field's value is a
string starting with an opening brace and containing `timestamp`. -/
def has_embedded_json_format (payload : Payload) : Bool :=
  payload.any fun kv =>
    match kv.2 with
    | .str s => startsWithBrace s && strContains s "timestamp"
    | _ => false

/-- `CraneMQTTClient.is_single_field_format`: exactly one field, and the
reserved-field check excludes only `device_token`. -/
def is_single_field_format (payload : Payload) : Bool :=
  payload.length == 1 && !(payload.any fun kv => kv.1 == "device_token")

/-- The shapes `process_message` dispatches on, plus the fall-through. -/
inductive PayloadShape where
  | array_triplet
  | embedded_json
  | single_field
  | unknown
deriving DecidableEq

/-- The dispatch chain of `CraneMQTTClient.process_message`:
`is_array_format` is checked first, then `has_embedded_json_format`,
then `is_single_field_format`; no match means the message is dropped. -/
def classify_payload (payload : Payload) : PayloadShape :=
  if is_array_format payload then .array_triplet
  else if has_embedded_json_format payload then .embedded_json
  else if is_single_field_format payload then .single_field
  else .unknown

/-- Python `float(value)` on the values these claims exercise: numbers
and booleans convert, anything else raises (`none`).  (Numeric strings,
which `float` would also parse, play no role in the claims settled
here.) -/
def jfloat : JValue → Option ℚ
  | .num q => some q
  | .boolean b => some (if b then 1 else 0)
  | _ => none

/-- Python `int(value)`: truncation toward zero of a numeric value. -/
def jint : JValue → Option ℤ
  | .num q => some (if q ≥ 0 then ⌊q⌋ else ⌈q⌉)
  | .boolean b => some (if b then 1 else 0)
  | _ => none

/-- A measurement row written by `process_single_field`, by table. -/
inductive MeasurementWrite where
  | motor (field : String) (value : ℚ)
  | io (field : String) (value : Bool)
  | load (value : ℚ) (capacity : ℚ)
  | alarm (field : String)
deriving DecidableEq

/-- The motor-field name set of `process_single_field`. -/
def motor_field_names : List String :=
  ["hoist_voltage", "hoist_current", "hoist_power", "hoist_frequency",
   "ct_voltage", "ct_current", "ct_power", "ct_frequency",
   "lt_voltage", "lt_current", "lt_power", "lt_frequency"]

/-- The IO-field name set of `process_single_field`. -/
def io_field_names : List String :=
  ["hoist_up", "hoist_down", "ct_left", "ct_right",
   "lt_forward", "lt_reverse", "start", "stop"]

/-- The alarm-field name set of `process_single_field`. -/
def alarm_field_names : List String := ["alarm_one", "alarm_two", "alarm_three"]

/-- `CraneMQTTClient.process_single_field`: ordered substring routing of
one field to at most one measurement row.  A `capacity` field only
updates the capacity cache (no measurement row); an unknown field or a
failed conversion writes nothing (the per-field `try/except` logs and
continues). -/
def process_single_field (field_name : String) (value : JValue) (capacity : ℚ) :
    Option MeasurementWrite :=
  let field_lower := field_name.toLower
  if motor_field_names.any fun f => strContains field_lower f then
    (jfloat value).map fun q => .motor field_name q
  else if io_field_names.any fun f => strContains field_lower f then
    (jint value).map fun i => .io field_name (i != 0)
  else if strContains field_lower "load" then
    (jfloat value).map fun q => .load q capacity
  else if strContains field_lower "capacity" then
    none
  else if alarm_field_names.any fun f => strContains field_lower f then
    match jint value with
    | some 1 => some (.alarm field_name)
    | _ => none
  else none

/-- `CraneMQTTClient.process_single_field_data`: every field whose name
is not one of `device_token`, `topic`, `timestamp` is routed through
`process_single_field`; the measurement rows written are collected in
order. -/
def process_single_field_data (payload : Payload) (capacity : ℚ) :
    List MeasurementWrite :=
  payload.filterMap fun kv =>
    if kv.1 = "device_token" ∨ kv.1 = "topic" ∨ kv.1 = "timestamp" then none
    else process_single_field kv.1 kv.2 capacity

/-- A payload matching both the array-triplet and the embedded-JSON
criteria at once. -/
def bothShapesPayload : Payload :=
  [("sensor", .arr [.num 1, .num 2, .num 3]),
   ("meta", .str "\x7btimestamp: 1\x7d")]

/-- A single-field payload named `timestamp` whose value is a 3-element
list. -/
def timestampArrayPayload : Payload :=
  [("timestamp", .arr [.num 1, .num 2, .num 3])]

theorem spec_gap_count_append (x : ℚ) (xs ys : List ℚ) :
    spec_gap_count ((x :: xs) ++ ys) =
      spec_gap_count (x :: xs) +
        (match ys with
         | [] => 0
         | y :: _ => if y - burstLast x xs > 5 then 1 else 0) +
        spec_gap_count ys := by
  induction xs generalizing x with
  | nil =>
      cases ys with
      | nil => simp [spec_gap_count]
      | cons y ys => simp [spec_gap_count, burstLast]
  | cons z xs ih =>
      have h := ih z
      cases ys with
      | nil =>
          simp only [List.cons_append, spec_gap_count, burstLast,
            List.append_eq, List.append_nil] at h ⊢
          omega
      | cons y ys =>
          simp only [List.cons_append, spec_gap_count, burstLast,
            List.append_eq] at h ⊢
          omega

theorem spec_gap_count_tight (h : ℚ) (ts : List ℚ)
    (ht : burstTight h ts = true) : spec_gap_count (h :: ts) = 0 := by
  induction ts generalizing h with
  | nil => rfl
  | cons t ts ih =>
      simp only [burstTight, Bool.and_eq_true, decide_eq_true_eq] at ht
      simp only [spec_gap_count, ih t ht.2]
      have : ¬ t - h > 5 := by linarith [ht.1]
      simp [this]

theorem gap_count_join_bursts (bs : List (ℚ × List ℚ))
    (htight : ∀ b ∈ bs, burstTight b.1 b.2 = true)
    (hsp : burstsSpaced bs = true) :
    spec_gap_count (burstsJoin bs) = bs.length - 1 := by
  induction bs with
  | nil => rfl
  | cons b bs ih =>
      cases bs with
      | nil =>
          simp only [burstsJoin, List.append_nil]
          rw [spec_gap_count_tight b.1 b.2 (htight b (by simp))]
          simp
      | cons c bs =>
          have hjoin : burstsJoin (c :: bs) = c.1 :: (c.2 ++ burstsJoin bs) := by
            simp [burstsJoin]
          simp only [burstsJoin] at *
          rw [hjoin, spec_gap_count_append]
          simp only [burstsSpaced, Bool.and_eq_true, decide_eq_true_eq] at hsp
          rw [spec_gap_count_tight b.1 b.2 (htight b (by simp))]
          have hrest : spec_gap_count (c.1 :: (c.2 ++ burstsJoin bs)) =
              (c :: bs).length - 1 := by
            have := ih (fun x hx => htight x (by simp [hx])) hsp.2
            simpa [burstsJoin, hjoin] using this
          rw [hrest]
          simp only [if_pos hsp.1, List.length_cons]
          omega

theorem energy_run_some (ps : List (ℚ × ℚ)) (acc t0 p0 : ℚ) :
    (energyLoop ⟨acc, some t0, p0⟩
        (ps.map fun x => MotorSample.mk x.1 (some x.2))).map EnergyState.total =
      some (acc + spec_trapezoid ((t0, p0) :: ps)) := by
  induction ps generalizing acc t0 p0 with
  | nil =>
      show some acc = some (acc + spec_trapezoid [(t0, p0)])
      norm_num [spec_trapezoid]
  | cons hd tl ih =>
      obtain ⟨t, p⟩ := hd
      simp only [List.map_cons, energyLoop, energyStep]
      rw [ih]
      show _ = some (acc + spec_trapezoid ((t0, p0) :: (t, p) :: tl))
      simp only [spec_trapezoid, Option.some_inj]
      ring

theorem energy_eq_spec_trapezoid (ps : List (ℚ × ℚ)) :
    calculate_energy_consumption (ps.map fun x => MotorSample.mk x.1 (some x.2)) =
      some (spec_trapezoid ps) := by
  cases ps with
  | nil => rfl
  | cons hd tl =>
      obtain ⟨t, p⟩ := hd
      simp only [calculate_energy_consumption, List.map_cons, energyLoop,
        energyStep, Option.getD_some]
      rw [energy_run_some]
      show some (0 + spec_trapezoid ((t, p) :: tl)) = _
      rw [zero_add]

theorem lift_run_some (ts : List ℚ) (n : ℕ) (last : ℚ) :
    (ts.foldl liftStep (n, some last)).1 = n + spec_gap_count (last :: ts) := by
  induction ts generalizing n last with
  | nil => simp [spec_gap_count]
  | cons t ts ih =>
      simp only [List.foldl_cons, liftStep]
      by_cases h : t - last > 5
      · simp only [if_pos h, ih, spec_gap_count]
        omega
      · simp only [if_neg h, ih, spec_gap_count]
        omega

theorem count_lifts_eq_gap_count (ts : List ℚ) :
    count_lifts ts = spec_gap_count ts := by
  cases ts with
  | nil => rfl
  | cons t ts =>
      simp only [count_lifts, List.foldl_cons, liftStep]
      simpa using lift_run_some ts 0 t

theorem opTime_run (ss : List IOSample) (acc : ℚ) (o : Option ℚ) (end_time : ℚ) :
    opTimeFinish (ss.foldl opTimeStep ⟨acc, o⟩) end_time =
      acc + opTimeBoundary o ss end_time + spec_operating_pairs ss +
        spec_open_flush end_time ss := by
  induction ss generalizing acc o with
  | nil =>
      cases o with
      | none =>
          simp [opTimeFinish, opTimeBoundary, spec_operating_pairs, spec_open_flush]
      | some t0 =>
          simp [opTimeFinish, opTimeBoundary, spec_operating_pairs, spec_open_flush]
  | cons a ss ih =>
      cases hop : is_operating a with
      | true =>
          cases o with
          | none =>
              simp only [List.foldl_cons, opTimeStep, hop, if_true]
              rw [ih]
              cases ss with
              | nil =>
                  simp [opTimeBoundary, spec_operating_pairs, spec_open_flush, hop]
              | cons b ss =>
                  simp only [opTimeBoundary, spec_operating_pairs, spec_open_flush, hop,
                    if_true]
                  ring
          | some t0 =>
              simp only [List.foldl_cons, opTimeStep, hop, if_true]
              rw [ih]
              cases ss with
              | nil =>
                  simp only [opTimeBoundary, spec_operating_pairs, spec_open_flush, hop,
                    if_true]
                  ring
              | cons b ss =>
                  simp only [opTimeBoundary, spec_operating_pairs, spec_open_flush, hop,
                    if_true]
                  ring
      | false =>
          cases o with
          | none =>
              simp only [List.foldl_cons, opTimeStep, hop, Bool.false_eq_true, if_false]
              rw [ih]
              cases ss with
              | nil =>
                  simp [opTimeBoundary, spec_operating_pairs, spec_open_flush, hop]
              | cons b ss =>
                  simp only [opTimeBoundary, spec_operating_pairs, spec_open_flush, hop,
                    Bool.false_eq_true, if_false]
                  ring
          | some t0 =>
              simp only [List.foldl_cons, opTimeStep, hop, Bool.false_eq_true, if_false]
              rw [ih]
              cases ss with
              | nil =>
                  simp [opTimeBoundary, spec_operating_pairs, spec_open_flush, hop]
              | cons b ss =>
                  simp only [opTimeBoundary, spec_operating_pairs, spec_open_flush, hop,
                    Bool.false_eq_true, if_false]
                  ring

theorem total_operation_time_eq_spec (ss : List IOSample) (end_time : ℚ) :
    _get_total_operation_time ss end_time =
      spec_operating_pairs ss + spec_open_flush end_time ss := by
  have h := opTime_run ss 0 none end_time
  simpa [_get_total_operation_time, opTimeBoundary] using h

theorem durations_append (ss : List IOSample) (s : IOSample) :
    (ss ++ [s]).foldl durStep ⟨fun _ => 0, none, none⟩ =
      durStep (ss.foldl durStep ⟨fun _ => 0, none, none⟩) s := by
  simp [List.foldl_append]

theorem update_or_create_hourly_idem (h : ℚ) (r : HourlyKPIs) (tbl : HourlyTable) :
    update_or_create_hourly h r (update_or_create_hourly h r tbl) =
      update_or_create_hourly h r tbl := by
  induction tbl with
  | nil => simp [update_or_create_hourly]
  | cons kv rest ih =>
      obtain ⟨k, r0⟩ := kv
      by_cases hk : k = h
      · simp [update_or_create_hourly, hk]
      · simp [update_or_create_hourly, hk, ih]

theorem foldl_max_mem (x : ℚ) (xs : List ℚ) : xs.foldl max x ∈ x :: xs := by
  induction xs generalizing x with
  | nil => simp
  | cons y ys ih =>
      simp only [List.foldl_cons]
      rcases List.mem_cons.mp (ih (max x y)) with h | h
      · rw [h]
        rcases max_choice x y with hc | hc <;> rw [hc] <;> simp
      · simp [h]

theorem le_foldl_max (x : ℚ) (xs : List ℚ) : ∀ y ∈ x :: xs, y ≤ xs.foldl max x := by
  induction xs generalizing x with
  | nil =>
      intro y hy
      simp only [List.mem_singleton] at hy
      simp [hy]
  | cons z zs ih =>
      intro y hy
      simp only [List.foldl_cons]
      rcases List.mem_cons.mp hy with h | h
      · rw [h]
        exact le_trans (le_max_left x z) (ih (max x z) (max x z) (by simp))
      · rcases List.mem_cons.mp h with h2 | h2
        · rw [h2]
          exact le_trans (le_max_right x z) (ih (max x z) (max x z) (by simp))
        · exact ih (max x z) y (by simp [h2])

/-! ## Claim theorems -/

/-- Claim C1: the spec states that the system-efficiency computation used
by the hourly rollup returns `min(100, target/actual × 100)` and returns
zero when `actual` is zero, never raising a division error.  The code
guards `target_energy_per_ton > 0` but divides by
`actual_energy_per_ton`: at `actual = 0, target = 1` it raises
`ZeroDivisionError` (`none`), contradicting the claim.  The remaining
conjuncts record the behaviour away from the failing input: the
`min`-capped ratio, the cap at 100, and the zero returned when the guard
`target > 0` fails. -/
theorem C1_system_efficiency_guard :
    calculate_system_efficiency 0 1 = none ∧
    calculate_system_efficiency 2 1 = some 50 ∧
    calculate_system_efficiency (1/2) 1 = some 100 ∧
    calculate_system_efficiency 4 0 = some 0 := by
  refine ⟨?_, ?_, ?_, ?_⟩ <;> norm_num [calculate_system_efficiency]

/-- Claim C2: the energy integrator returns the trapezoidal sum (pairwise
`average × Δt_hours`), a single sample contributes nothing, and the
(t=0, 10 kW), (t=1h, 20 kW) pair yields 15 kWh — all confirmed below.
But the claim that a null `total_power` always contributes as zero with
no error raised fails: the null default is applied only when the sample
is stored as the previous one; a null-power sample that has a predecessor
is used raw in the average and raises a `TypeError` (`none`). -/
theorem C2_energy_integrator :
    (∀ ps : List (ℚ × ℚ),
        calculate_energy_consumption (ps.map fun x => MotorSample.mk x.1 (some x.2)) =
          some (spec_trapezoid ps)) ∧
    calculate_energy_consumption [⟨0, some 10⟩, ⟨3600, some 20⟩] = some 15 ∧
    calculate_energy_consumption [⟨0, some 10⟩] = some 0 ∧
    calculate_energy_consumption [⟨0, none⟩, ⟨3600, some 20⟩] = some 10 ∧
    calculate_energy_consumption [⟨0, some 10⟩, ⟨3600, none⟩] = none := by
  refine ⟨energy_eq_spec_trapezoid, ?_, ?_, ?_, ?_⟩ <;>
    norm_num [calculate_energy_consumption, energyLoop, energyStep]

/-- Claim C3: the lift counter initializes state on the first sample
without incrementing and increments once for each later sample whose gap
from the previous sample strictly exceeds 5 seconds — equivalently, the
count equals the number of consecutive pairs with gap > 5; hoist-up
samples at 0 s, 2 s, 10 s, 11 s yield exactly 1; and N widely-spaced
tight bursts yield N − 1. -/
theorem C3_lift_counter :
    (∀ ts : List ℚ, count_lifts ts = spec_gap_count ts) ∧
    count_lifts [0, 2, 10, 11] = 1 ∧
    (∀ bs : List (ℚ × List ℚ), (∀ b ∈ bs, burstTight b.1 b.2 = true) →
      burstsSpaced bs = true → count_lifts (burstsJoin bs) = bs.length - 1) := by
  refine ⟨count_lifts_eq_gap_count, ?_, ?_⟩
  · rw [count_lifts_eq_gap_count]
    norm_num [spec_gap_count]
  · intro bs h1 h2
    rw [count_lifts_eq_gap_count]
    exact gap_count_join_bursts bs h1 h2

theorem C3_lift_counter_witness :
    count_lifts (burstsJoin [((0 : ℚ), [2]), (10, [11])]) =
      [((0 : ℚ), [2]), (10, [11])].length - 1 :=
  C3_lift_counter.2.2 [((0 : ℚ), [2]), (10, [11])]
    (by norm_num [burstTight, burstLast]) (by norm_num [burstsSpaced, burstLast])

/-- Claim C4: the operation duration calculator accrues to each operation
only the time between the transition that opened it and the first later
sample with a different resolved operation: a trailing sample resolving
to the same operation changes nothing (first conjunct), a differing
sample closes the open period and credits exactly its span to the
previous operation (second conjunct); a still-open period is never
flushed to the window end.  The samples (0, hoist_up), (5, none),
(8, hoist_down), (12, none) yield hoist_up = 5 s, hoist_down = 4 s and
zero for every other operation, and dropping the final sample leaves
hoist_down with no time. -/
theorem C4_operation_durations :
    (∀ (ss : List IOSample) (s : IOSample),
        get_active_operation s =
          (ss.foldl durStep ⟨fun _ => 0, none, none⟩).current_operation →
        calculate_operation_durations (ss ++ [s]) = calculate_operation_durations ss) ∧
    (∀ (ss : List IOSample) (s : IOSample) (c : Operation) (t0 : ℚ),
        (ss.foldl durStep ⟨fun _ => 0, none, none⟩).current_operation = some c →
        (ss.foldl durStep ⟨fun _ => 0, none, none⟩).operation_start = some t0 →
        get_active_operation s ≠ some c →
        calculate_operation_durations (ss ++ [s]) c =
          calculate_operation_durations ss c + (s.timestamp - t0)) ∧
    (calculate_operation_durations
        [ioHoistUpAt 0, ioIdleAt 5, ioHoistDownAt 8, ioIdleAt 12] .hoist_up = 5 ∧
      calculate_operation_durations
        [ioHoistUpAt 0, ioIdleAt 5, ioHoistDownAt 8, ioIdleAt 12] .hoist_down = 4 ∧
      calculate_operation_durations
        [ioHoistUpAt 0, ioIdleAt 5, ioHoistDownAt 8, ioIdleAt 12] .ct_left = 0 ∧
      calculate_operation_durations
        [ioHoistUpAt 0, ioIdleAt 5, ioHoistDownAt 8, ioIdleAt 12] .ct_right = 0 ∧
      calculate_operation_durations
        [ioHoistUpAt 0, ioIdleAt 5, ioHoistDownAt 8, ioIdleAt 12] .lt_forward = 0 ∧
      calculate_operation_durations
        [ioHoistUpAt 0, ioIdleAt 5, ioHoistDownAt 8, ioIdleAt 12] .lt_reverse = 0 ∧
      calculate_operation_durations
        [ioHoistUpAt 0, ioIdleAt 5, ioHoistDownAt 8, ioIdleAt 12] .stop = 0) ∧
    calculate_operation_durations [ioHoistUpAt 0, ioIdleAt 5, ioHoistDownAt 8] .hoist_down = 0 := by
  refine ⟨?_, ?_, ?_, ?_⟩
  · intro ss s h
    unfold calculate_operation_durations
    rw [durations_append]
    simp only [durStep]
    rw [if_pos h.symm]
  · intro ss s c t0 hcur hstart hne
    unfold calculate_operation_durations
    rw [durations_append]
    have hcond : ¬ ((ss.foldl durStep ⟨fun _ => 0, none, none⟩).current_operation =
        get_active_operation s) := by
      rw [hcur]
      exact fun heq => hne heq.symm
    simp only [durStep]
    rw [if_neg hcond]
    simp only [hcur, hstart]
    simp
  · refine ⟨?_, ?_, rfl, rfl, rfl, rfl, rfl⟩
    · have h : calculate_operation_durations
          [ioHoistUpAt 0, ioIdleAt 5, ioHoistDownAt 8, ioIdleAt 12] .hoist_up =
            0 + (5 - 0) := rfl
      rw [h]
      norm_num
    · have h : calculate_operation_durations
          [ioHoistUpAt 0, ioIdleAt 5, ioHoistDownAt 8, ioIdleAt 12] .hoist_down =
            0 + (12 - 8) := rfl
      rw [h]
      norm_num
  · rfl

theorem C4_operation_durations_witness :
    calculate_operation_durations ([ioHoistUpAt 0] ++ [ioIdleAt 5]) Operation.hoist_up =
      calculate_operation_durations [ioHoistUpAt 0] Operation.hoist_up +
        ((ioIdleAt 5).timestamp - 0) :=
  C4_operation_durations.2.1 [ioHoistUpAt 0] (ioIdleAt 5) Operation.hoist_up 0
    (by simp [durStep, get_active_operation, ioHoistUpAt])
    (by simp [durStep, get_active_operation, ioHoistUpAt])
    (by simp [get_active_operation, ioIdleAt])

/-- Claim C5: for a window with positive planned time, Availability
equals `min(100, operating_time / planned_time × 100)`, where
`operating_time` accrues the spans during which any of the six motion
flags is true — pairwise, every consecutive pair whose earlier sample is
operating contributes its gap — and, unlike the operation duration
calculator, a span still open at the last sample IS flushed to
`end_time` (the `spec_open_flush` term). -/
theorem C5_availability (ss : List IOSample) (start_time end_time : ℚ)
    (h : end_time - start_time > 0) :
    calculate_availability ss end_time (end_time - start_time) =
      min 100 (_get_total_operation_time ss end_time / (end_time - start_time) * 100) ∧
    _get_total_operation_time ss end_time =
      spec_operating_pairs ss + spec_open_flush end_time ss := by
  constructor
  · rw [calculate_availability, if_pos h, min_comm]
  · exact total_operation_time_eq_spec ss end_time

theorem C5_availability_witness :
    calculate_availability [ioHoistUpAt 0, ioIdleAt 5] 10 (10 - 0) =
      min 100 (_get_total_operation_time [ioHoistUpAt 0, ioIdleAt 5] 10 / (10 - 0) * 100) ∧
    _get_total_operation_time [ioHoistUpAt 0, ioIdleAt 5] 10 =
      spec_operating_pairs [ioHoistUpAt 0, ioIdleAt 5] +
        spec_open_flush 10 [ioHoistUpAt 0, ioIdleAt 5] :=
  C5_availability [ioHoistUpAt 0, ioIdleAt 5] 0 10 (by norm_num)

/-- Claim C6: the hourly rollup is idempotent — running the per-crane
hourly computation twice over unchanged measurement rows leaves the
`CraneHourlyKPIs` table exactly as after the first run: the
`update_or_create` upsert keyed by (crane, hour_start) replaces the
existing row with the same deterministically recomputed values, never
inserting a duplicate. -/
theorem C6_hourly_rollup_idempotent (inp : HourlyInputs) (tbl : HourlyTable) :
    hourly_rollup inp (hourly_rollup inp tbl) = hourly_rollup inp tbl := by
  cases hc : _calculate_crane_hourly_kpis inp with
  | none => simp [hourly_rollup, hc]
  | some r =>
      simp only [hourly_rollup, hc]
      exact update_or_create_hourly_idem inp.hour_start r tbl

/-- Claim C7: for a load measurement written with positive capacity, the
stored `load_percentage` is `load / capacity * 100` and the stored status
is derived from it at write time: `normal` below 80, `warning` from 80 up
to but excluding 95, `overload` from 95. -/
theorem C7_load_status (load capacity pct0 : ℚ) (status0 : LoadStatus)
    (h : capacity > 0) :
    (loadcell_save load capacity pct0 status0).1 = load / capacity * 100 ∧
    (loadcell_save load capacity pct0 status0).2 =
      (if load / capacity * 100 < 80 then LoadStatus.normal
       else if load / capacity * 100 < 95 then LoadStatus.warning
       else LoadStatus.overload) := by
  simp only [loadcell_save, if_pos h]
  constructor
  · trivial
  · by_cases h95 : load / capacity * 100 ≥ 95
    · rw [if_pos h95, if_neg (by linarith), if_neg (by linarith)]
    · by_cases h80 : load / capacity * 100 ≥ 80
      · rw [if_neg h95, if_pos h80, if_neg (by linarith), if_pos (by linarith)]
      · rw [if_neg h95, if_neg h80, if_pos (by linarith)]

theorem C7_load_status_witness :
    (loadcell_save 80 100 0 LoadStatus.normal).2 = LoadStatus.warning ∧
    (loadcell_save (7999/100) 100 0 LoadStatus.normal).2 = LoadStatus.normal ∧
    (loadcell_save 95 100 0 LoadStatus.normal).2 = LoadStatus.overload := by
  refine ⟨?_, ?_, ?_⟩
  · rw [(C7_load_status 80 100 0 LoadStatus.normal (by norm_num)).2]
    norm_num
  · rw [(C7_load_status (7999/100) 100 0 LoadStatus.normal (by norm_num)).2]
    norm_num
  · rw [(C7_load_status 95 100 0 LoadStatus.normal (by norm_num)).2]
    norm_num

/-- Claim C8: `process_message` checks the array-triplet shape first,
then embedded JSON, then single scalar, so a body satisfying several
shape predicates resolves to the earliest-checked one; in particular
whenever `is_array_format` holds the message is processed as an array
triplet regardless of the other predicates. -/
theorem C8_classification_precedence (payload : Payload) :
    (is_array_format payload = true →
      classify_payload payload = PayloadShape.array_triplet) ∧
    (is_array_format payload = false → has_embedded_json_format payload = true →
      classify_payload payload = PayloadShape.embedded_json) ∧
    (is_array_format payload = false → has_embedded_json_format payload = false →
      is_single_field_format payload = true →
      classify_payload payload = PayloadShape.single_field) :=
  ⟨fun h1 => by simp [classify_payload, h1],
   fun h1 h2 => by simp [classify_payload, h1, h2],
   fun h1 h2 h3 => by simp [classify_payload, h1, h2, h3]⟩

theorem C8_classification_precedence_witness :
    is_array_format bothShapesPayload = true ∧
    has_embedded_json_format bothShapesPayload = true ∧
    classify_payload bothShapesPayload = PayloadShape.array_triplet :=
  ⟨by decide, by decide,
   (C8_classification_precedence bothShapesPayload).1 (by decide)⟩

/-- Claim C9: the claim says the daily rollup writes, for each unit with
hourly rows, one row whose `peak_load` is the maximum of
`total_mass_moved_tonnes` over those rows, and no row for a unit with
zero hourly rows.  In the code `Sum`, `Avg` and `Max` are never
imported, so the moment a unit HAS hourly rows the aggregate raises
`NameError`, the `except` swallows it, and no row is written either: the
daily rollup never writes any row (first conjunct, evaluated at the
claim's {1, 3, 2} example in the second).  The claim is nonetheless
right about the computation the code spells out: the written-out
aggregate puts the maximum of the masses in `peak_load` — an element of
the column dominating all others — and masses {1, 3, 2} give 3 (last
two conjuncts, about `daily_aggregate_row`). -/
theorem C9_daily_rollup_never_writes :
    (∀ rows : List HourlyKPIs, _calculate_crane_daily_kpis rows = none) ∧
    _calculate_crane_daily_kpis
        [hourlyRowWithMass 1, hourlyRowWithMass 3, hourlyRowWithMass 2] = none ∧
    (∀ rows : List HourlyKPIs, rows ≠ [] →
      (daily_aggregate_row rows).peak_load ∈
          rows.map HourlyKPIs.total_mass_moved_tonnes ∧
        ∀ m ∈ rows.map HourlyKPIs.total_mass_moved_tonnes,
          m ≤ (daily_aggregate_row rows).peak_load) ∧
    (daily_aggregate_row
        [hourlyRowWithMass 1, hourlyRowWithMass 3, hourlyRowWithMass 2]).peak_load = 3 := by
  refine ⟨fun rows => ?_, rfl, ?_, rfl⟩
  · cases rows <;> rfl
  · intro rows hne
    match rows with
    | [] => exact absurd rfl hne
    | r :: rs =>
        constructor
        · show (aggMax ((r :: rs).map HourlyKPIs.total_mass_moved_tonnes)).getD 0 ∈ _
          simp only [List.map_cons, aggMax, Option.getD_some]
          exact foldl_max_mem _ _
        · intro m hm
          show m ≤ (aggMax ((r :: rs).map HourlyKPIs.total_mass_moved_tonnes)).getD 0
          simp only [List.map_cons, aggMax, Option.getD_some]
          exact le_foldl_max _ _ m (by simpa using hm)

theorem C9_daily_rollup_never_writes_witness :
    (daily_aggregate_row [hourlyRowWithMass 1]).peak_load ∈
        [hourlyRowWithMass 1].map HourlyKPIs.total_mass_moved_tonnes ∧
      ∀ m ∈ [hourlyRowWithMass 1].map HourlyKPIs.total_mass_moved_tonnes,
        m ≤ (daily_aggregate_row [hourlyRowWithMass 1]).peak_load :=
  C9_daily_rollup_never_writes.2.2.1 [hourlyRowWithMass 1] (List.cons_ne_nil _ _)

/-- Claim C10 (counterexample): a body with exactly one field named
`timestamp` is NOT always classified as single-field format — when its
value is a 3-element list the array-triplet check fires first, so the
claim's universally quantified classification statement fails at this
input. -/
theorem C10_counterexample_timestamp_array :
    classify_payload timestampArrayPayload = PayloadShape.array_triplet ∧
    classify_payload timestampArrayPayload ≠ PayloadShape.single_field := by
  refine ⟨rfl, ?_⟩
  decide

/-- Claim C10 (amended): for a body with exactly one field named
`timestamp` or `topic` that does not match the array-triplet or
embedded-JSON shapes, the classifier resolves single-field format (its
reserved-field check excludes only `device_token`), yet the single-field
processor skips `device_token`, `topic` and `timestamp`, so no
measurement row of any kind is written. -/
theorem C10_single_reserved_field (n : String) (v : JValue) (cap : ℚ)
    (hn : n = "timestamp" ∨ n = "topic")
    (ha : is_array_format [(n, v)] = false)
    (he : has_embedded_json_format [(n, v)] = false) :
    is_single_field_format [(n, v)] = true ∧
    classify_payload [(n, v)] = PayloadShape.single_field ∧
    process_single_field_data [(n, v)] cap = [] := by
  have hs : is_single_field_format [(n, v)] = true := by
    rcases hn with h | h <;> subst h <;> rfl
  have hp : process_single_field_data [(n, v)] cap = [] := by
    rcases hn with h | h <;> subst h <;> rfl
  exact ⟨hs, by simp [classify_payload, ha, he, hs], hp⟩

theorem C10_single_reserved_field_witness :
    is_single_field_format [(("timestamp" : String), JValue.num 5)] = true ∧
    classify_payload [(("timestamp" : String), JValue.num 5)] = PayloadShape.single_field ∧
    process_single_field_data [(("timestamp" : String), JValue.num 5)] 100 = [] :=
  C10_single_reserved_field "timestamp" (JValue.num 5) 100 (Or.inl rfl)
    (by decide) (by decide)

end CraneMonitoring
